import Mathlib

/-!
Shallow embedding of the order/cart workflow of a layered e-commerce API
(TypeScript source: `src/business/domain/{Product,Order,Cart}.ts`,
`src/business/services/{OrderService,CartService}.ts`).

Modelling conventions:
* JS `number` money values (prices, subtotals, taxes, totals) are `ℚ`;
  quantities and stock counts are `ℤ` (JS numbers used as integers).
* `throw new Error(msg)` in the domain entities becomes `Except String`;
  the service layer's typed errors (the `OrderError` / `CartError`
  factories) become the `SvcError` sum type.  A domain-rule throw that
  propagates out of a service call is surfaced as
  `SvcError.businessLogic`, matching the error taxonomy of the
  specification (an illegal state transition or insufficient stock is a
  business-rule failure, not malformed input or a missing resource).
* Async/await plus the injected repositories and Redis client are
  modelled by explicit state passing over `St` (user store, product
  store, order store, the per-order cache entries `order:{id}` and the
  per-user carts `cart:{userId}`).  List-level cache keys (`orders:*`,
  `user:*:orders:*`) and TTLs are not represented: no claim concerns
  them, and clearing them touches no modelled key.
* `new Date()` timestamps become an explicit `now : Nat` argument where
  a claim mentions them (`shippedAt`, `deliveredAt`); the pure
  bookkeeping fields `createdAt` / `updatedAt` / `addedAt` are omitted.
* Randomly generated identifiers (`orderNumber`, the ids of new order
  rows and order items) are passed in as arguments or fixed to `""`;
  no claim depends on their values.

The Batteries arithmetic on `Rat` is `@[irreducible]`, which only blocks
elaborator-level evaluation (`decide` / `rfl` on concrete scenarios);
restoring the default reducibility lets the concrete checkout scenarios
below be checked by evaluation.
-/

namespace Shop

attribute [local semireducible] Rat.mul Rat.add Rat.sub Rat.inv

/-- `src/business/domain/Product.ts` (timestamp fields omitted). -/
structure Product where
  id : String
  name : String
  description : String
  price : ℚ
  sku : String
  stock : ℤ
  categoryId : String
  isActive : Bool
  deriving DecidableEq, Repr

namespace Product

/-- `Product.isInStock`. -/
def isInStock (p : Product) : Bool := p.stock > 0

/-- `Product.canFulfillQuantity`. -/
def canFulfillQuantity (p : Product) (quantity : ℤ) : Bool :=
  p.stock ≥ quantity

/-- `Product.reduceStock`: throws when the stock cannot fulfill the
requested quantity, otherwise subtracts it. -/
def reduceStock (p : Product) (quantity : ℤ) : Except String Product :=
  if !(p.canFulfillQuantity quantity) then
    .error s!"Insufficient stock. Available: {p.stock}, Requested: {quantity}"
  else
    .ok { p with stock := p.stock - quantity }

/-- `Product.increaseStock`: throws on a non-positive quantity, otherwise
adds it. -/
def increaseStock (p : Product) (quantity : ℤ) : Except String Product :=
  if quantity ≤ 0 then
    .error "Quantity must be positive"
  else
    .ok { p with stock := p.stock + quantity }

end Product

/-- A stock mutation as performed on a product by the workflow
(checkout decrements, cancel/refund restores). -/
inductive StockOp
  | reduce (q : ℤ)
  | increase (q : ℤ)
  deriving DecidableEq, Repr

/-- Apply one stock mutation; a rejected mutation (the entity throws)
leaves the product unchanged. -/
def applyStockOp (p : Product) : StockOp → Product
  | .reduce q =>
    match p.reduceStock q with
    | .ok p' => p'
    | .error _ => p
  | .increase q =>
    match p.increaseStock q with
    | .ok p' => p'
    | .error _ => p

/-- Apply a sequence of stock mutations. -/
def applyStockOps (p : Product) (ops : List StockOp) : Product :=
  ops.foldl applyStockOp p

/-- `OrderStatus` enum of `src/business/domain/Order.ts`. -/
inductive OrderStatus
  | PENDING
  | CONFIRMED
  | PROCESSING
  | SHIPPED
  | DELIVERED
  | CANCELLED
  | REFUNDED
  deriving DecidableEq, Repr

/-- The string value of an `OrderStatus` enum member. -/
def OrderStatus.name : OrderStatus → String
  | .PENDING => "PENDING"
  | .CONFIRMED => "CONFIRMED"
  | .PROCESSING => "PROCESSING"
  | .SHIPPED => "SHIPPED"
  | .DELIVERED => "DELIVERED"
  | .CANCELLED => "CANCELLED"
  | .REFUNDED => "REFUNDED"

/-- `PaymentStatus` enum of `src/business/domain/Order.ts`. -/
inductive PaymentStatus
  | PENDING
  | PAID
  | FAILED
  | REFUNDED
  deriving DecidableEq, Repr

/-- The string value of a `PaymentStatus` enum member. -/
def PaymentStatus.name : PaymentStatus → String
  | .PENDING => "PENDING"
  | .PAID => "PAID"
  | .FAILED => "FAILED"
  | .REFUNDED => "REFUNDED"

/-- `OrderItem` interface of `src/business/domain/Order.ts`. -/
structure OrderItem where
  id : String
  productId : String
  productName : String
  quantity : ℤ
  unitPrice : ℚ
  subtotal : ℚ
  deriving DecidableEq, Repr

/-- `ShippingAddress` interface of `src/business/domain/Order.ts`. -/
structure ShippingAddress where
  street : String
  city : String
  state : String
  zipCode : String
  country : String
  deriving DecidableEq, Repr

/-- `Order` entity of `src/business/domain/Order.ts`
(`createdAt` / `updatedAt` omitted; `shippedAt` / `deliveredAt` are
abstract timestamps). -/
structure Order where
  id : String
  userId : String
  orderNumber : String
  items : List OrderItem
  subtotal : ℚ
  shipping : ℚ
  taxes : ℚ
  total : ℚ
  status : OrderStatus
  paymentStatus : PaymentStatus
  shippingAddress : ShippingAddress
  shippedAt : Option Nat
  deliveredAt : Option Nat
  deriving DecidableEq, Repr

namespace Order

/-- `Order.confirm`. -/
def confirm (o : Order) : Except String Order :=
  if o.status ≠ .PENDING then
    .error "Only pending orders can be confirmed"
  else
    .ok { o with status := .CONFIRMED }

/-- `Order.process`. -/
def process (o : Order) : Except String Order :=
  if o.status ≠ .CONFIRMED then
    .error "Only confirmed orders can be processed"
  else
    .ok { o with status := .PROCESSING }

/-- `Order.ship` (sets `shippedAt = now`). -/
def ship (o : Order) (now : Nat) : Except String Order :=
  if o.status ≠ .PROCESSING then
    .error "Only processing orders can be shipped"
  else
    .ok { o with status := .SHIPPED, shippedAt := some now }

/-- `Order.deliver` (sets `deliveredAt = now`). -/
def deliver (o : Order) (now : Nat) : Except String Order :=
  if o.status ≠ .SHIPPED then
    .error "Only shipped orders can be delivered"
  else
    .ok { o with status := .DELIVERED, deliveredAt := some now }

/-- `Order.cancel`. -/
def cancel (o : Order) : Except String Order :=
  if [OrderStatus.DELIVERED, OrderStatus.CANCELLED, OrderStatus.REFUNDED].contains o.status then
    .error "Cannot cancel order in current status"
  else
    .ok { o with status := .CANCELLED }

/-- `Order.markAsPaid`. -/
def markAsPaid (o : Order) : Order :=
  { o with paymentStatus := .PAID }

/-- `Order.markPaymentFailed`. -/
def markPaymentFailed (o : Order) : Order :=
  { o with paymentStatus := .FAILED }

/-- `Order.refund`: only paid orders can be refunded; also forces the
order status to REFUNDED. -/
def refund (o : Order) : Except String Order :=
  if o.paymentStatus ≠ .PAID then
    .error "Only paid orders can be refunded"
  else
    .ok { o with paymentStatus := .REFUNDED, status := .REFUNDED }

/-- `Order.calculateTotals`: 10% tax, free shipping strictly over 100. -/
def calculateTotals (o : Order) : Order :=
  let subtotal := o.items.foldl (fun sum item => sum + item.subtotal) 0
  let taxes := subtotal * (1/10)
  let shipping : ℚ := if subtotal > 100 then 0 else 10
  { o with subtotal := subtotal, taxes := taxes, shipping := shipping,
           total := subtotal + taxes + shipping }

/-- `Order.canBeCancelled`. -/
def canBeCancelled (o : Order) : Bool :=
  !([OrderStatus.DELIVERED, OrderStatus.CANCELLED, OrderStatus.REFUNDED].contains o.status)

/-- `Order.canBeRefunded`. -/
def canBeRefunded (o : Order) : Bool :=
  o.paymentStatus == .PAID &&
    [OrderStatus.DELIVERED, OrderStatus.SHIPPED].contains o.status

/-- `Order.isCompleted`. -/
def isCompleted (o : Order) : Bool :=
  o.status == .DELIVERED

/-- The per-item part of `Order.validate` (`idx` is the 0-based item
index; messages use `idx + 1`). -/
def validateItem (idx : Nat) (item : OrderItem) : List String :=
  (if item.productId = "" then [s!"Item {idx + 1}: Product ID is required"] else [])
    ++ (if item.quantity ≤ 0 then [s!"Item {idx + 1}: Quantity must be positive"] else [])
    ++ (if item.unitPrice < 0 then [s!"Item {idx + 1}: Unit price cannot be negative"] else [])

/-- `Order.validate` (structural validation; the JS falsy test on the
string fields is the empty-string test). -/
def validate (o : Order) : List String :=
  (if o.userId = "" then ["User ID is required"] else [])
    ++ (if o.items.length = 0 then ["Order must have at least one item"] else [])
    ++ (if o.shippingAddress.street = "" then ["Shipping address is required"] else [])
    ++ (o.items.enum.map (fun p => validateItem p.1 p.2)).foldl (· ++ ·) []

/-- `Order.isValid`. -/
def isValid (o : Order) : Bool :=
  o.validate.length == 0

end Order

/-- `CartItem` interface of `src/business/domain/Cart.ts`
(`addedAt` omitted). -/
structure CartItem where
  id : String
  productId : String
  quantity : ℤ
  price : ℚ
  subtotal : ℚ
  deriving DecidableEq, Repr

/-- `Cart` entity of `src/business/domain/Cart.ts`
(timestamps omitted). -/
structure Cart where
  id : String
  userId : String
  items : List CartItem
  total : ℚ
  itemCount : ℤ
  deriving DecidableEq, Repr

namespace Cart

/-- `Cart.recalculateTotal`. -/
def recalculateTotal (c : Cart) : Cart :=
  { c with total := c.items.foldl (fun sum item => sum + item.subtotal) 0,
           itemCount := c.items.foldl (fun sum item => sum + item.quantity) 0 }

/-- Mutate the first cart item matching `productId` (JS `Array.find`
returns the first match, which is then mutated in place). -/
def updateFirstItem (productId : String) (f : CartItem → CartItem) :
    List CartItem → List CartItem
  | [] => []
  | item :: rest =>
    if item.productId = productId then f item :: rest
    else item :: updateFirstItem productId f rest

/-- `Cart.addItem` (the id of a newly pushed item is random in the
source and passed in here). -/
def addItem (c : Cart) (productId : String) (quantity : ℤ) (price : ℚ)
    (newId : String) : Cart :=
  let bump : CartItem → CartItem := fun item =>
    { item with quantity := item.quantity + quantity,
                subtotal := (item.quantity + quantity) * item.price }
  let newItem : CartItem :=
    { id := newId, productId := productId, quantity := quantity,
      price := price, subtotal := quantity * price }
  let c' :=
    if c.items.any (fun item => item.productId == productId) then
      { c with items := updateFirstItem productId bump c.items }
    else
      { c with items := c.items ++ [newItem] }
  c'.recalculateTotal

/-- `Cart.removeItem`. -/
def removeItem (c : Cart) (productId : String) : Cart :=
  ({ c with items := c.items.filter (fun item => item.productId != productId) }).recalculateTotal

/-- `Cart.updateItemQuantity`: a non-positive quantity removes the item;
otherwise the first matching item (if any) is updated and the totals
recomputed. -/
def updateItemQuantity (c : Cart) (productId : String) (quantity : ℤ) : Cart :=
  if quantity ≤ 0 then
    c.removeItem productId
  else
    let setQty : CartItem → CartItem := fun item =>
      { item with quantity := quantity, subtotal := quantity * item.price }
    if c.items.any (fun item => item.productId == productId) then
      ({ c with items := updateFirstItem productId setQty c.items }).recalculateTotal
    else
      c

/-- `Cart.isEmpty`. -/
def isEmpty (c : Cart) : Bool :=
  c.items.length == 0

end Cart

/-- `User` entity of `src/business/domain/User.ts`; only the fields the
order/cart workflow reads are represented. -/
structure User where
  id : String
  email : String
  isActive : Bool
  deriving DecidableEq, Repr

/-- The error taxonomy of the service layer (`OrderError` / `CartError`
static factories; the spec's NotFound / Validation / BusinessLogic /
Internal kinds).  Domain-entity throws that propagate out of a service
call are business-rule failures and are carried as `businessLogic`. -/
inductive SvcError
  | notFound (msg : String)
  | validation (msg : String)
  | businessLogic (msg : String)
  | internal (msg : String)
  deriving DecidableEq, Repr

/-- The state threaded through a service call: the three persistence
ports plus the modelled Redis data (`order:{id}` cache entries keyed by
order id, and the `cart:{userId}` carts keyed by user id). -/
structure St where
  users : List User
  products : List Product
  orders : List Order
  orderCache : List (String × Order)
  carts : List Cart
  deriving DecidableEq, Repr

/-- `UserRepository.findById` (unique-id lookup). -/
def findUser (users : List User) (id : String) : Option User :=
  users.find? (fun u => u.id == id)

/-- `ProductRepository.findById` (unique-id lookup). -/
def findProduct (products : List Product) (id : String) : Option Product :=
  products.find? (fun p => p.id == id)

/-- `ProductRepository.update`: overwrite the row with the given id. -/
def updateProduct (products : List Product) (id : String) (p : Product) :
    List Product :=
  products.map (fun q => if q.id == id then p else q)

/-- `OrderRepository.findById` (unique-id lookup). -/
def findOrder (orders : List Order) (id : String) : Option Order :=
  orders.find? (fun o => o.id == id)

/-- `OrderRepository.update`: overwrite the row with the given id. -/
def updateOrder (orders : List Order) (id : String) (o : Order) :
    List Order :=
  orders.map (fun q => if q.id == id then o else q)

/-- `redis.get` on the `order:{id}` key. -/
def cacheGetOrder (s : St) (id : String) : Option Order :=
  (s.orderCache.find? (fun e => e.1 == id)).map (fun e => e.2)

/-- `redis.setEx` on the `order:{id}` key. -/
def cacheSetOrder (s : St) (id : String) (o : Order) : St :=
  { s with orderCache := (id, o) :: s.orderCache.filter (fun e => e.1 != id) }

/-- `redis.del` on the `order:{id}` key (`clearOrderCache`). -/
def clearOrderCache (s : St) (id : String) : St :=
  { s with orderCache := s.orderCache.filter (fun e => e.1 != id) }

/-- `redis.get`/`redis.setEx` on the `cart:{userId}` key. -/
def findCart (carts : List Cart) (userId : String) : Option Cart :=
  carts.find? (fun c => c.userId == userId)

/-- `CartService.cacheCart`: overwrite the `cart:{userId}` entry. -/
def cacheCart (s : St) (c : Cart) : St :=
  { s with carts := c :: s.carts.filter (fun d => d.userId != c.userId) }

/-- `OrderService.getOrderById`: cache-aside read.  A hit returns the
cached order; a miss reads the store and populates the cache. -/
def getOrderById (s : St) (id : String) : Option Order × St :=
  match cacheGetOrder s id with
  | some o => (some o, s)
  | none =>
    match findOrder s.orders id with
    | some o => (some o, cacheSetOrder s id o)
    | none => (none, s)

/-- The `for` loop of `OrderService.restoreStock`.  Each iteration loads
the product (a missing product is skipped), calls `increaseStock` and
persists.  A throw aborts the loop: the products updated so far stay
updated, the rest are left untouched, and the enclosing `try` swallows
the error. -/
def restoreStockLoop (products : List Product) :
    List OrderItem → List Product
  | [] => products
  | item :: rest =>
    match findProduct products item.productId with
    | none => restoreStockLoop products rest
    | some p =>
      match p.increaseStock item.quantity with
      | .ok p' => restoreStockLoop (updateProduct products p.id p') rest
      | .error _ => products

/-- `OrderService.restoreStock`: best-effort, never throws. -/
def restoreStock (s : St) (o : Order) : St :=
  { s with products := restoreStockLoop s.products o.items }

/-- The `switch (status)` of `OrderService.updateOrderStatus`: map the
target status to the corresponding domain event; the `default` branch
(targets PENDING and REFUNDED) is a Validation failure. -/
def applyStatusEvent (o : Order) (status : OrderStatus) (now : Nat) :
    Except SvcError Order :=
  match status with
  | .CONFIRMED => o.confirm.mapError .businessLogic
  | .PROCESSING => o.process.mapError .businessLogic
  | .SHIPPED => (o.ship now).mapError .businessLogic
  | .DELIVERED => (o.deliver now).mapError .businessLogic
  | .CANCELLED => o.cancel.mapError .businessLogic
  | _ => .error (.validation s!"Invalid status transition: {status.name}")

/-- `OrderService.updateOrderStatus`.  On a CANCELLED transition the
stock is restored before the order row is written back; any transition
failure propagates with the order untouched. -/
def updateOrderStatus (s : St) (id : String) (status : OrderStatus)
    (now : Nat) : Except SvcError Order × St :=
  match getOrderById s id with
  | (none, s1) => (.error (.notFound "Order not found"), s1)
  | (some o, s1) =>
    match applyStatusEvent o status now with
    | .error e => (.error e, s1)
    | .ok o' =>
      let s2 := if status = OrderStatus.CANCELLED then restoreStock s1 o' else s1
      let s3 := clearOrderCache { s2 with orders := updateOrder s2.orders id o' } id
      (.ok o', s3)

/-- The `switch (paymentStatus)` of `OrderService.updatePaymentStatus`:
PAID marks the order paid and auto-confirms a still-PENDING order;
FAILED only marks the payment failed; REFUNDED delegates to
`Order.refund`; the `default` branch (target PENDING) is a Validation
failure. -/
def applyPaymentEvent (o : Order) (paymentStatus : PaymentStatus) :
    Except SvcError Order :=
  match paymentStatus with
  | .PAID =>
    let o1 := o.markAsPaid
    if o1.status = OrderStatus.PENDING then o1.confirm.mapError .businessLogic
    else .ok o1
  | .FAILED => .ok o.markPaymentFailed
  | .REFUNDED => o.refund.mapError .businessLogic
  | .PENDING => .error (.validation s!"Invalid payment status: {PaymentStatus.PENDING.name}")

/-- `OrderService.updatePaymentStatus`.  On a REFUNDED transition the
stock is restored before the order row is written back. -/
def updatePaymentStatus (s : St) (id : String)
    (paymentStatus : PaymentStatus) : Except SvcError Order × St :=
  match getOrderById s id with
  | (none, s1) => (.error (.notFound "Order not found"), s1)
  | (some o, s1) =>
    match applyPaymentEvent o paymentStatus with
    | .error e => (.error e, s1)
    | .ok o' =>
      let s2 := if paymentStatus = PaymentStatus.REFUNDED then restoreStock s1 o' else s1
      let s3 := clearOrderCache { s2 with orders := updateOrder s2.orders id o' } id
      (.ok o', s3)

/-- `OrderService.cancelOrder`: guarded by `canBeCancelled`, then
cancels, restores stock and writes the order back. -/
def cancelOrder (s : St) (id : String) : Except SvcError Order × St :=
  match getOrderById s id with
  | (none, s1) => (.error (.notFound "Order not found"), s1)
  | (some o, s1) =>
    if !o.canBeCancelled then
      (.error (.businessLogic "Order cannot be cancelled in its current status"), s1)
    else
      match o.cancel with
      | .error e => (.error (.businessLogic e), s1)
      | .ok o' =>
        let s2 := restoreStock s1 o'
        let s3 := clearOrderCache { s2 with orders := updateOrder s2.orders id o' } id
        (.ok o', s3)

/-- One `{productId, quantity}` line of a `CreateOrderRequest`. -/
structure CartLine where
  productId : String
  quantity : ℤ
  deriving DecidableEq, Repr

/-- `CreateOrderRequest` of `src/business/services/OrderService.ts`. -/
structure CreateOrderRequest where
  userId : String
  cartItems : List CartLine
  shippingAddress : ShippingAddress
  deriving DecidableEq, Repr

/-- The validation/pricing loop of `OrderService.createOrder`: per line
item, reject a non-positive quantity (Validation), a missing product
(NotFound), an inactive product (BusinessLogic) and insufficient stock
(BusinessLogic), and otherwise snapshot name and unit price into an
`OrderItem` (its random id is modelled as `""`). -/
def buildOrderItems (products : List Product) :
    List CartLine → Except SvcError (List OrderItem)
  | [] => .ok []
  | line :: rest =>
    if line.quantity ≤ 0 then
      .error (.validation s!"Invalid quantity for product {line.productId}")
    else
      match findProduct products line.productId with
      | none => .error (.notFound s!"Product {line.productId} not found")
      | some p =>
        if !p.isActive then
          .error (.businessLogic s!"Product {p.name} is not available")
        else if !(p.canFulfillQuantity line.quantity) then
          .error (.businessLogic s!"Insufficient stock for product {p.name}. Available: {p.stock}, Requested: {line.quantity}")
        else
          (buildOrderItems products rest).map
            (fun items =>
              { id := "", productId := p.id, productName := p.name,
                quantity := line.quantity, unitPrice := p.price,
                subtotal := p.price * (line.quantity : ℚ) } :: items)

/-- The stock-reservation loop of `OrderService.createOrder` (step after
order persistence): per order item, load the product (a missing product
is skipped), `reduceStock` and persist; a throw propagates out of
`createOrder`, keeping the decrements already persisted. -/
def reserveStockLoop (products : List Product) :
    List OrderItem → List Product × Option String
  | [] => (products, none)
  | item :: rest =>
    match findProduct products item.productId with
    | none => reserveStockLoop products rest
    | some p =>
      match p.reduceStock item.quantity with
      | .ok p' => reserveStockLoop (updateProduct products p.id p') rest
      | .error e => (products, some e)

/-- `OrderService.createOrder`.  `ordNum` and `oid` stand for the
generated order number and the id the store assigns to the new row. -/
def createOrder (s : St) (req : CreateOrderRequest) (ordNum : String)
    (oid : String) : Except SvcError Order × St :=
  match findUser s.users req.userId with
  | none => (.error (.notFound "User not found"), s)
  | some user =>
    if !user.isActive then
      (.error (.businessLogic "User account is inactive"), s)
    else if req.cartItems.isEmpty then
      (.error (.validation "Order must contain at least one item"), s)
    else
      match buildOrderItems s.products req.cartItems with
      | .error e => (.error e, s)
      | .ok orderItems =>
        let subtotal := orderItems.foldl (fun sum item => sum + item.subtotal) 0
        let taxes := subtotal * (1/10)
        let shipping : ℚ := if subtotal > 100 then 0 else 10
        let total := subtotal + taxes + shipping
        let order : Order :=
          { id := "", userId := req.userId, orderNumber := ordNum,
            items := orderItems, subtotal := subtotal, shipping := shipping,
            taxes := taxes, total := total, status := .PENDING,
            paymentStatus := .PENDING, shippingAddress := req.shippingAddress,
            shippedAt := none, deliveredAt := none }
        let validationErrors := order.validate
        let joinedErrors := String.intercalate ", " validationErrors
        if validationErrors.length > 0 then
          (.error (.validation s!"Order validation failed: {joinedErrors}"), s)
        else
          let createdOrder := { order with id := oid }
          let s1 := { s with orders := s.orders ++ [createdOrder] }
          match reserveStockLoop s1.products orderItems with
          | (ps, some e) => (.error (.businessLogic e), { s1 with products := ps })
          | (ps, none) => (.ok createdOrder, { s1 with products := ps })

/-- `CartService.getCartByUserId`: the user must exist; a cached cart is
returned as is, otherwise a new empty cart is created and cached. -/
def getCartByUserId (s : St) (userId : String) : Except SvcError Cart × St :=
  match findUser s.users userId with
  | none => (.error (.notFound "User not found"), s)
  | some _ =>
    match findCart s.carts userId with
    | some cart => (.ok cart, s)
    | none =>
      let newCart : Cart :=
        { id := "", userId := userId, items := [], total := 0, itemCount := 0 }
      (.ok newCart, cacheCart s newCart)

/-- `CartService.removeItemFromCart`. -/
def removeItemFromCart (s : St) (userId productId : String) :
    Except SvcError Cart × St :=
  match getCartByUserId s userId with
  | (.error e, s1) => (.error e, s1)
  | (.ok cart, s1) =>
    match cart.items.find? (fun item => item.productId == productId) with
    | none => (.error (.notFound "Item not found in cart"), s1)
    | some _ =>
      let cart' := cart.removeItem productId
      (.ok cart', cacheCart s1 cart')

/-- `CartService.updateCartItemQuantity`: negative quantities are a
Validation failure, a missing item a NotFound failure, quantity zero
delegates to `removeItemFromCart`, and a positive quantity is stock
checked before the cart is updated. -/
def updateCartItemQuantity (s : St) (userId productId : String)
    (quantity : ℤ) : Except SvcError Cart × St :=
  if quantity < 0 then
    (.error (.validation "Quantity cannot be negative"), s)
  else
    match getCartByUserId s userId with
    | (.error e, s1) => (.error e, s1)
    | (.ok cart, s1) =>
      match cart.items.find? (fun item => item.productId == productId) with
      | none => (.error (.notFound "Item not found in cart"), s1)
      | some _ =>
        if quantity = 0 then
          removeItemFromCart s1 userId productId
        else
          match findProduct s1.products productId with
          | none => (.error (.notFound "Product not found"), s1)
          | some p =>
            if !(p.canFulfillQuantity quantity) then
              (.error (.businessLogic s!"Insufficient stock. Available: {p.stock}, Requested: {quantity}"), s1)
            else
              let cart' := cart.updateItemQuantity productId quantity
              (.ok cart', cacheCart s1 cart')

/-- The body of the per-item loop of
`CartService.validateCartForCheckout`: a vanished product or an inactive
product short-circuits (`continue`); otherwise the stock check and the
0.01-tolerance price-drift check each contribute an error
independently. -/
def checkoutItemErrors (products : List Product) (item : CartItem) :
    List String :=
  match findProduct products item.productId with
  | none => [s!"Product {item.productId} no longer exists"]
  | some p =>
    if !p.isActive then
      [s!"Product {p.name} is no longer available"]
    else
      (if !(p.canFulfillQuantity item.quantity) then
        [s!"Insufficient stock for {p.name}. Available: {p.stock}, Requested: {item.quantity}"]
      else [])
        ++ (if |item.price - p.price| > 1/100 then
          [s!"Price has changed for {p.name}. Current: {p.price}, Cart: {item.price}"]
        else [])

/-- The result shape of `validateCartForCheckout`. -/
structure CartCheckoutResult where
  isValid : Bool
  errors : List String
  deriving DecidableEq, Repr

/-- `CartService.validateCartForCheckout`: an empty cart is invalid with
the single error `Cart is empty`; otherwise the per-item errors are
accumulated into one list (the shared `errors` array of the source) and
validity is the emptiness of that list. -/
def validateCartForCheckout (s : St) (userId : String) :
    Except SvcError CartCheckoutResult × St :=
  match getCartByUserId s userId with
  | (.error e, s1) => (.error e, s1)
  | (.ok cart, s1) =>
    if cart.isEmpty then
      (.ok { isValid := false, errors := ["Cart is empty"] }, s1)
    else
      let errors := cart.items.foldl
        (fun acc item => acc ++ checkoutItemErrors s1.products item) []
      (.ok { isValid := errors.length == 0, errors := errors }, s1)

/-- Concatenation of the per-item checkout errors, item by item: the
compositional description of the loop of `validateCartForCheckout`. -/
def itemErrorsAll (products : List Product) : List CartItem → List String
  | [] => []
  | item :: rest => checkoutItemErrors products item ++ itemErrorsAll products rest

/-- The total quantity the items of an order hold against one product id
(the amount `restoreStock` is meant to give back to that product). -/
def restoredQty (pid : String) (items : List OrderItem) : ℤ :=
  items.foldr (fun item acc => (if item.productId = pid then item.quantity else 0) + acc) 0

/-- A product fixture: stock 5, unit price 50 (scenario A of the spec). -/
def prodA : Product :=
  { id := "p1", name := "Widget", description := "A widget", price := 50,
    sku := "SKU-1", stock := 5, categoryId := "cat1", isActive := true }

/-- An active user fixture. -/
def userA : User :=
  { id := "u1", email := "a@example.com", isActive := true }

/-- A shipping address fixture. -/
def addrA : ShippingAddress :=
  { street := "1 Main St", city := "Springfield", state := "SP",
    zipCode := "12345", country := "BR" }

/-- State fixture for scenario A: one active user, one product with
stock 5 and unit price 50, empty order store and caches. -/
def stA : St :=
  { users := [userA], products := [prodA], orders := [],
    orderCache := [], carts := [] }

/-- Checkout request fixture for scenario A: 2 units of `p1`. -/
def reqA : CreateOrderRequest :=
  { userId := "u1", cartItems := [{ productId := "p1", quantity := 2 }],
    shippingAddress := addrA }

/-- The order scenario A produces: subtotal 100, taxes 10, shipping 10
(100 is not strictly above 100), total 120. -/
def ordA : Order :=
  { id := "o1", userId := "u1", orderNumber := "ORD-A",
    items := [{ id := "", productId := "p1", productName := "Widget",
                quantity := 2, unitPrice := 50, subtotal := 100 }],
    subtotal := 100, shipping := 10, taxes := 10, total := 120,
    status := .PENDING, paymentStatus := .PENDING, shippingAddress := addrA,
    shippedAt := none, deliveredAt := none }

/-- The state scenario A leaves behind: the order persisted and the
product stock reduced from 5 to 3. -/
def stA' : St :=
  { users := [userA], products := [{ prodA with stock := 3 }],
    orders := [ordA], orderCache := [], carts := [] }

/-- An order that has been paid while still CONFIRMED (neither shipped
nor delivered). -/
def ordPaid : Order :=
  { ordA with status := .CONFIRMED, paymentStatus := .PAID }

/-- State holding the paid-but-only-confirmed order. -/
def stPaid : St :=
  { users := [userA], products := [{ prodA with stock := 3 }],
    orders := [ordPaid], orderCache := [], carts := [] }

/-- A second product fixture. -/
def prodB : Product :=
  { id := "p2", name := "Gadget", description := "A gadget", price := 20,
    sku := "SKU-2", stock := 7, categoryId := "cat1", isActive := true }

/-- An order item with quantity 0: restoring it makes `increaseStock`
throw. -/
def itemZ : OrderItem :=
  { id := "", productId := "p1", productName := "Widget", quantity := 0,
    unitPrice := 50, subtotal := 0 }

/-- A well-formed order item for product `p2`. -/
def itemW : OrderItem :=
  { id := "", productId := "p2", productName := "Gadget", quantity := 5,
    unitPrice := 20, subtotal := 100 }

/-- A PROCESSING order whose first item fails to restore while its
second would restore fine. -/
def ordZ : Order :=
  { id := "o2", userId := "u1", orderNumber := "ORD-Z",
    items := [itemZ, itemW], subtotal := 100, shipping := 10, taxes := 10,
    total := 120, status := .PROCESSING, paymentStatus := .PENDING,
    shippingAddress := addrA, shippedAt := none, deliveredAt := none }

/-- State holding `ordZ` together with both products. -/
def stZ : St :=
  { users := [userA], products := [prodA, prodB], orders := [ordZ],
    orderCache := [], carts := [] }

/-- Cart items for the checkout-validation scenario: a clean line, a
line whose cached price drifted by exactly 0.01 (tolerated), a line
requesting more than the stock, and a line whose product vanished. -/
def itemC1 : CartItem :=
  { id := "i1", productId := "p1", quantity := 2, price := 50, subtotal := 100 }

/-- Cart line with price drift of exactly 0.01. -/
def itemC2 : CartItem :=
  { id := "i2", productId := "p1", quantity := 1, price := 50 + 1/100,
    subtotal := 50 + 1/100 }

/-- Cart line requesting more than the stock. -/
def itemC3 : CartItem :=
  { id := "i3", productId := "p1", quantity := 99, price := 50, subtotal := 4950 }

/-- Cart line whose product no longer exists. -/
def itemC4 : CartItem :=
  { id := "i4", productId := "nope", quantity := 1, price := 5, subtotal := 5 }

/-- The cart fixture for checkout validation. -/
def cartW : Cart :=
  { id := "c1", userId := "u1", items := [itemC1, itemC2, itemC3, itemC4],
    total := 5155 + 1/100, itemCount := 103 }

/-- State holding the cart fixture (cache hit for user `u1`). -/
def stW : St :=
  { users := [userA], products := [prodA], orders := [],
    orderCache := [], carts := [cartW] }

/-- The scenario-A order while PROCESSING (scenario D starts here). -/
def ordD : Order :=
  { ordA with status := .PROCESSING }

/-- State holding the PROCESSING order and the decremented product. -/
def stD : St :=
  { users := [userA], products := [{ prodA with stock := 3 }],
    orders := [ordD], orderCache := [], carts := [] }

/-- The scenario-A order already CANCELLED. -/
def ordC : Order :=
  { ordA with status := .CANCELLED }

/-- State holding the already-CANCELLED order. -/
def stC : St :=
  { users := [userA], products := [{ prodA with stock := 3 }],
    orders := [ordC], orderCache := [], carts := [] }

-- Theorems -----------------------------------------------------------------

/-- A single rejected or accepted stock mutation keeps the stock
non-negative. -/
theorem applyStockOp_stock_nonneg (p : Product) (h : 0 ≤ p.stock)
    (op : StockOp) : 0 ≤ (applyStockOp p op).stock := by
  cases op with
  | reduce q =>
    by_cases hq : p.stock ≥ q <;>
      simp [applyStockOp, Product.reduceStock, Product.canFulfillQuantity, hq] <;>
      omega
  | increase q =>
    by_cases hq : q ≤ 0 <;>
      simp [applyStockOp, Product.increaseStock, hq] <;>
      omega

/-- Any sequence of rejected-or-accepted stock mutations keeps the stock
non-negative. -/
theorem applyStockOps_stock_nonneg :
    ∀ (ops : List StockOp) (p : Product), 0 ≤ p.stock →
      0 ≤ (applyStockOps p ops).stock
  | [], _, h => h
  | op :: ops, p, h =>
    applyStockOps_stock_nonneg ops (applyStockOp p op)
      (applyStockOp_stock_nonneg p h op)

/-- C2: for a product with non-negative stock, `reduceStock` throws
exactly when the requested quantity exceeds the stock and otherwise
subtracts it, `increaseStock` throws exactly on a non-positive quantity
and otherwise adds it, both preserving `stock ≥ 0`; hence stock stays
non-negative after any sequence of stock mutations. -/
theorem claim_C2_stock_invariant (p : Product) (h : 0 ≤ p.stock) :
    (∀ q : ℤ,
      (p.stock < q →
        p.reduceStock q =
          .error s!"Insufficient stock. Available: {p.stock}, Requested: {q}")
      ∧ (q ≤ p.stock →
        p.reduceStock q = .ok { p with stock := p.stock - q }
          ∧ 0 ≤ p.stock - q))
    ∧ (∀ q : ℤ,
      (q ≤ 0 → p.increaseStock q = .error "Quantity must be positive")
      ∧ (0 < q →
        p.increaseStock q = .ok { p with stock := p.stock + q }
          ∧ 0 ≤ p.stock + q))
    ∧ ∀ ops : List StockOp, 0 ≤ (applyStockOps p ops).stock := by
  refine ⟨fun q => ⟨fun hq => ?_, fun hq => ⟨?_, by omega⟩⟩,
          fun q => ⟨fun hq => ?_, fun hq => ⟨?_, by omega⟩⟩,
          fun ops => applyStockOps_stock_nonneg ops p h⟩
  · simp only [Product.reduceStock, Product.canFulfillQuantity]
    have : ¬ (p.stock ≥ q) := by omega
    simp [this]
  · simp only [Product.reduceStock, Product.canFulfillQuantity]
    have : p.stock ≥ q := hq
    simp [this]
  · simp [Product.increaseStock, hq]
  · simp only [Product.increaseStock]
    have : ¬ (q ≤ 0) := by omega
    simp [this]

/-- C2 witness: the invariant theorem applied to a concrete product with
stock 5 and a concrete mutation sequence. -/
theorem claim_C2_witness :
    (0 ≤ prodA.stock)
    ∧ (prodA.stock < 10 →
        prodA.reduceStock 10 =
          .error s!"Insufficient stock. Available: {prodA.stock}, Requested: {(10 : ℤ)}")
    ∧ (2 ≤ prodA.stock →
        prodA.reduceStock 2 = .ok { prodA with stock := prodA.stock - 2 }
          ∧ 0 ≤ prodA.stock - 2)
    ∧ 0 ≤ (applyStockOps prodA [.reduce 2, .increase 3, .reduce 6, .reduce 6]).stock := by
  refine ⟨by decide, ((claim_C2_stock_invariant prodA (by decide)).1 10).1,
          ((claim_C2_stock_invariant prodA (by decide)).1 2).2,
          (claim_C2_stock_invariant prodA (by decide)).2.2 _⟩

/-- C1: every successfully created order is priced with taxes equal to
10% of the subtotal, shipping equal to 0 only strictly above a subtotal
of 100 (flat fee 10 otherwise, including at exactly 100), and total
equal to subtotal + taxes + shipping. -/
theorem claim_C1_pricing (s : St) (req : CreateOrderRequest)
    (ordNum oid : String) (o : Order) (s' : St)
    (h : createOrder s req ordNum oid = (.ok o, s')) :
    o.taxes = o.subtotal * (1/10)
    ∧ o.shipping = (if o.subtotal > 100 then (0 : ℚ) else 10)
    ∧ o.total = o.subtotal + o.taxes + o.shipping
    ∧ (o.subtotal = 100 → o.shipping = 10) := by
  unfold createOrder at h
  split at h
  · simp at h
  · split at h
    · simp at h
    · split at h
      · simp at h
      · split at h
        · simp at h
        · dsimp only at h
          split at h
          · split at h
            · simp at h
            · split at h
              · simp at h
              · rw [Prod.mk.injEq] at h
                obtain ⟨h1, -⟩ := h
                rw [Except.ok.injEq] at h1
                subst h1
                refine ⟨rfl, ?_, rfl, fun hsub => ?_⟩
                · dsimp only
                  rw [if_pos (by assumption)]
                · exfalso
                  dsimp only at hsub
                  linarith
          · split at h
            · simp at h
            · split at h
              · simp at h
              · rw [Prod.mk.injEq] at h
                obtain ⟨h1, -⟩ := h
                rw [Except.ok.injEq] at h1
                subst h1
                refine ⟨rfl, ?_, rfl, fun hsub => rfl⟩
                dsimp only
                rw [if_neg (by assumption)]

/-- C1 witness (scenario A of the spec): 2 units at unit price 50 and
stock 5 yield subtotal 100, taxes 10, shipping 10, total 120, and the
product stock drops to 3. -/
theorem claim_C1_witness :
    createOrder stA reqA "ORD-A" "o1" = (.ok ordA, stA')
    ∧ ordA.subtotal = 100 ∧ ordA.taxes = 10 ∧ ordA.shipping = 10
    ∧ ordA.total = 120
    ∧ ordA.taxes = ordA.subtotal * (1/10)
    ∧ ordA.shipping = (if ordA.subtotal > 100 then (0 : ℚ) else 10)
    ∧ ordA.total = ordA.subtotal + ordA.taxes + ordA.shipping
    ∧ findProduct stA'.products "p1" = some { prodA with stock := 3 } := by
  have h : createOrder stA reqA "ORD-A" "o1" = (.ok ordA, stA') := by rfl
  obtain ⟨t1, t2, t3, -⟩ := claim_C1_pricing stA reqA "ORD-A" "o1" ordA stA' h
  exact ⟨h, rfl, rfl, rfl, rfl, t1, t2, t3, rfl⟩

/-- If every line item of the list passes the quantity, existence and
active checks but some line requests more than the found product's
stock, the validation loop of `createOrder` throws BusinessLogic. -/
theorem buildOrderItems_insufficient (ps : List Product) :
    ∀ lines : List CartLine,
      (∀ l ∈ lines, 0 < l.quantity ∧
        ∃ p, findProduct ps l.productId = some p ∧ p.isActive = true) →
      (∃ l ∈ lines, ∃ p, findProduct ps l.productId = some p ∧
        p.stock < l.quantity) →
      ∃ msg, buildOrderItems ps lines = .error (.businessLogic msg)
  | [], _, hsome => absurd hsome (by simp)
  | line :: rest, hall, hsome => by
    obtain ⟨hqty, p, hp, hact⟩ := hall line (by simp)
    by_cases hs : p.stock < line.quantity
    · refine ⟨s!"Insufficient stock for product {p.name}. Available: {p.stock}, Requested: {line.quantity}", ?_⟩
      unfold buildOrderItems
      rw [if_neg (by omega), hp]
      dsimp only
      rw [if_neg (by simp [hact])]
      rw [if_pos (by simp [Product.canFulfillQuantity]; omega)]
    · have hrest : ∃ l ∈ rest, ∃ q, findProduct ps l.productId = some q ∧
          q.stock < l.quantity := by
        obtain ⟨l, hl, q, hq, hqs⟩ := hsome
        rcases List.mem_cons.mp hl with hl | hl
        · subst hl
          rw [hp] at hq
          cases hq
          omega
        · exact ⟨l, hl, q, hq, hqs⟩
      obtain ⟨msg, hmsg⟩ := buildOrderItems_insufficient ps rest
        (fun l hl => hall l (List.mem_cons_of_mem _ hl)) hrest
      refine ⟨msg, ?_⟩
      unfold buildOrderItems
      rw [if_neg (by omega), hp]
      dsimp only
      rw [if_neg (by simp [hact])]
      rw [if_neg (by simp [Product.canFulfillQuantity]; omega), hmsg]
      rfl

/-- C3: when the requesting user exists and is active, the request is
non-empty and every line passes the quantity / existence / activity
checks, but some line requests more than the matching product's stock,
`createOrder` fails with BusinessLogic and returns the state unchanged:
no order is persisted and no stock is mutated. -/
theorem claim_C3_insufficient_stock_no_side_effects (s : St)
    (req : CreateOrderRequest) (ordNum oid : String) (u : User)
    (hu : findUser s.users req.userId = some u) (hact : u.isActive = true)
    (hne : req.cartItems ≠ [])
    (hall : ∀ l ∈ req.cartItems, 0 < l.quantity ∧
      ∃ p, findProduct s.products l.productId = some p ∧ p.isActive = true)
    (hsome : ∃ l ∈ req.cartItems, ∃ p,
      findProduct s.products l.productId = some p ∧ p.stock < l.quantity) :
    ∃ msg, createOrder s req ordNum oid = (.error (.businessLogic msg), s) := by
  obtain ⟨msg, hb⟩ := buildOrderItems_insufficient s.products req.cartItems hall hsome
  refine ⟨msg, ?_⟩
  unfold createOrder
  rw [hu]
  dsimp only
  rw [if_neg (by simp [hact])]
  rw [if_neg (by cases hc : req.cartItems with
    | nil => exact absurd hc hne
    | cons a t => simp)]
  rw [hb]

/-- C3 witness (scenario C of the spec): requesting 10 units against a
stock of 5 fails with BusinessLogic and leaves the state untouched. -/
theorem claim_C3_witness :
    ∃ msg,
      createOrder stA
        { userId := "u1",
          cartItems := [{ productId := "p1", quantity := 10 }],
          shippingAddress := addrA } "ORD-C" "o1"
        = (.error (.businessLogic msg), stA) := by
  refine claim_C3_insufficient_stock_no_side_effects stA _ "ORD-C" "o1" userA
    rfl rfl (by simp) ?_ ?_
  · intro l hl
    rw [List.mem_singleton] at hl
    subst hl
    exact ⟨by decide, prodA, rfl, rfl⟩
  · exact ⟨{ productId := "p1", quantity := 10 }, by simp, prodA, rfl, by decide⟩

/-- `getOrderById` only touches the order cache. -/
theorem getOrderById_state (s : St) (id : String) :
    (getOrderById s id).2.users = s.users
    ∧ (getOrderById s id).2.products = s.products
    ∧ (getOrderById s id).2.orders = s.orders
    ∧ (getOrderById s id).2.carts = s.carts := by
  unfold getOrderById
  cases hc : cacheGetOrder s id
  · cases hf : findOrder s.orders id <;> simp [cacheSetOrder]
  · simp

/-- A second `getOrderById` right after a successful one returns the
same order and changes nothing (the first call has already populated the
cache). -/
theorem getOrderById_idem (s : St) (id : String) (o : Order) (s1 : St)
    (h : getOrderById s id = (some o, s1)) :
    getOrderById s1 id = (some o, s1) := by
  unfold getOrderById at h ⊢
  cases hc : cacheGetOrder s id with
  | some o' =>
    rw [hc] at h
    simp only [Prod.mk.injEq, Option.some.injEq] at h
    obtain ⟨rfl, rfl⟩ := h
    rw [hc]
  | none =>
    rw [hc] at h
    cases hf : findOrder s.orders id with
    | none => rw [hf] at h; simp at h
    | some o' =>
      rw [hf] at h
      simp only [Prod.mk.injEq, Option.some.injEq] at h
      obtain ⟨rfl, rfl⟩ := h
      have hget : cacheGetOrder (cacheSetOrder s id o') id = some o' := by
        simp [cacheGetOrder, cacheSetOrder]
      rw [hget]

/-- A product found by id carries that id. -/
theorem findProduct_some_id {ps : List Product} {pid : String} {p : Product}
    (h : findProduct ps pid = some p) : p.id = pid := by
  have := List.find?_some h
  simpa using this

/-- How `updateProduct` changes the result of `findProduct`: looking up
the updated id finds the new row exactly when the id was present, and
every other lookup is unchanged. -/
theorem findProduct_updateProduct (ps : List Product) (id : String)
    (p' : Product) (hid : p'.id = id) (pid : String) :
    findProduct (updateProduct ps id p') pid =
      if pid = id then (findProduct ps id).map (fun _ => p')
      else findProduct ps pid := by
  induction ps with
  | nil => simp only [findProduct, updateProduct, List.map_nil]; split <;> simp
  | cons q rest ih =>
    simp only [findProduct, updateProduct, List.map_cons] at ih ⊢
    by_cases hb : pid = id <;> by_cases hc : q.id = pid <;>
      by_cases hq : q.id = id <;>
      simp_all [List.find?_cons_of_pos, List.find?_cons_of_neg, beq_iff_eq]

/-- When every item of an order has a positive quantity, the restore
loop runs to completion and gives every product back exactly the total
quantity its items held (products never referenced are untouched, items
whose product no longer exists are skipped). -/
theorem findProduct_restoreStockLoop :
    ∀ (items : List OrderItem) (ps : List Product),
      (∀ it ∈ items, 0 < it.quantity) → ∀ pid,
      findProduct (restoreStockLoop ps items) pid =
        (findProduct ps pid).map
          (fun p => { p with stock := p.stock + restoredQty pid items })
  | [], ps, _, pid => by
    cases h : findProduct ps pid <;> simp [restoreStockLoop, restoredQty, h]
  | it :: rest, ps, hpos, pid => by
    have hrest : ∀ x ∈ rest, 0 < x.quantity :=
      fun x hx => hpos x (List.mem_cons_of_mem _ hx)
    unfold restoreStockLoop
    cases hf : findProduct ps it.productId with
    | none =>
      rw [findProduct_restoreStockLoop rest ps hrest pid]
      by_cases hp : pid = it.productId
      · subst hp
        rw [hf]
        simp
      · have hne : it.productId ≠ pid := fun h => hp h.symm
        cases hfp : findProduct ps pid <;> simp [restoredQty, hne, hfp]
    | some p =>
      have hqty : 0 < it.quantity := hpos it (List.mem_cons_self _ _)
      have hpid : p.id = it.productId := findProduct_some_id hf
      have hinc : p.increaseStock it.quantity
          = .ok { p with stock := p.stock + it.quantity } := by
        unfold Product.increaseStock
        rw [if_neg (by omega)]
      dsimp only
      rw [hinc]
      dsimp only
      rw [findProduct_restoreStockLoop rest _ hrest pid]
      rw [findProduct_updateProduct ps p.id
        { p with stock := p.stock + it.quantity } rfl pid]
      by_cases hp : pid = p.id
      · subst hp
        rw [if_pos rfl, hpid, hf]
        have : it.productId = p.id := hpid.symm
        simp [restoredQty, hpid.symm, add_assoc]
      · rw [if_neg hp]
        have hne : it.productId ≠ pid := fun h => hp (hpid ▸ h.symm ▸ rfl)
        cases hfp : findProduct ps pid <;> simp [restoredQty, hne, hfp]

/-- C4: the status machine is strict: CONFIRMED only from PENDING,
PROCESSING only from CONFIRMED, SHIPPED only from PROCESSING (setting
`shippedAt`), DELIVERED only from SHIPPED (setting `deliveredAt`); a
transition attempted from any other source fails with BusinessLogic and
leaves the order unchanged, and the unrecognized targets PENDING and
REFUNDED fail with Validation. -/
theorem claim_C4_status_machine (s : St) (id : String) (o : Order)
    (s1 : St) (now : Nat) (h : getOrderById s id = (some o, s1)) :
    ((updateOrderStatus s id .CONFIRMED now).1 =
      if o.status = .PENDING then .ok { o with status := .CONFIRMED }
      else .error (.businessLogic "Only pending orders can be confirmed"))
    ∧ ((updateOrderStatus s id .PROCESSING now).1 =
      if o.status = .CONFIRMED then .ok { o with status := .PROCESSING }
      else .error (.businessLogic "Only confirmed orders can be processed"))
    ∧ ((updateOrderStatus s id .SHIPPED now).1 =
      if o.status = .PROCESSING then
        .ok { o with status := .SHIPPED, shippedAt := some now }
      else .error (.businessLogic "Only processing orders can be shipped"))
    ∧ ((updateOrderStatus s id .DELIVERED now).1 =
      if o.status = .SHIPPED then
        .ok { o with status := .DELIVERED, deliveredAt := some now }
      else .error (.businessLogic "Only shipped orders can be delivered"))
    ∧ (∀ (target : OrderStatus) (e : SvcError) (s' : St),
        updateOrderStatus s id target now = (.error e, s') →
        s' = s1 ∧ (getOrderById s1 id).1 = some o)
    ∧ updateOrderStatus s id .PENDING now =
        (.error (.validation "Invalid status transition: PENDING"), s1)
    ∧ updateOrderStatus s id .REFUNDED now =
        (.error (.validation "Invalid status transition: REFUNDED"), s1) := by
  refine ⟨?_, ?_, ?_, ?_, ?_, ?_, ?_⟩
  · unfold updateOrderStatus
    rw [h]
    dsimp only
    unfold applyStatusEvent Order.confirm
    dsimp only
    by_cases hs : o.status = .PENDING
    · rw [if_neg (by simp [hs]), if_pos hs]
      rfl
    · rw [if_pos hs, if_neg hs]
      rfl
  · unfold updateOrderStatus
    rw [h]
    dsimp only
    unfold applyStatusEvent Order.process
    dsimp only
    by_cases hs : o.status = .CONFIRMED
    · rw [if_neg (by simp [hs]), if_pos hs]
      rfl
    · rw [if_pos hs, if_neg hs]
      rfl
  · unfold updateOrderStatus
    rw [h]
    dsimp only
    unfold applyStatusEvent Order.ship
    dsimp only
    by_cases hs : o.status = .PROCESSING
    · rw [if_neg (by simp [hs]), if_pos hs]
      rfl
    · rw [if_pos hs, if_neg hs]
      rfl
  · unfold updateOrderStatus
    rw [h]
    dsimp only
    unfold applyStatusEvent Order.deliver
    dsimp only
    by_cases hs : o.status = .SHIPPED
    · rw [if_neg (by simp [hs]), if_pos hs]
      rfl
    · rw [if_pos hs, if_neg hs]
      rfl
  · intro target e s' heq
    have hidem := getOrderById_idem s id o s1 h
    unfold updateOrderStatus at heq
    rw [h] at heq
    dsimp only at heq
    cases happly : applyStatusEvent o target now with
    | error e2 =>
      rw [happly] at heq
      simp only [Prod.mk.injEq] at heq
      exact ⟨heq.2.symm, by rw [hidem]⟩
    | ok o' =>
      rw [happly] at heq
      dsimp only at heq
      simp at heq
  · unfold updateOrderStatus
    rw [h]
    rfl
  · unfold updateOrderStatus
    rw [h]
    rfl

/-- C4 witness: on a concrete PENDING order, confirm succeeds, ship
fails with BusinessLogic, and the target REFUNDED fails with
Validation. -/
theorem claim_C4_witness :
    getOrderById stA' "o1" = (some ordA, { stA' with orderCache := [("o1", ordA)] })
    ∧ (updateOrderStatus stA' "o1" .CONFIRMED 5).1 =
        .ok { ordA with status := .CONFIRMED }
    ∧ (updateOrderStatus stA' "o1" .SHIPPED 5).1 =
        .error (.businessLogic "Only processing orders can be shipped")
    ∧ updateOrderStatus stA' "o1" .REFUNDED 5 =
        (.error (.validation "Invalid status transition: REFUNDED"),
          { stA' with orderCache := [("o1", ordA)] }) := by
  have h : getOrderById stA' "o1"
      = (some ordA, { stA' with orderCache := [("o1", ordA)] }) := rfl
  obtain ⟨c1, -, c3, -, -, -, c7⟩ :=
    claim_C4_status_machine stA' "o1" ordA _ 5 h
  refine ⟨h, ?_, ?_, c7⟩
  · rw [c1]; rfl
  · rw [c3]; rfl

/-- C5 counterexample: on an order that is PAID but only CONFIRMED
(neither SHIPPED nor DELIVERED), `updatePaymentStatus(id, REFUNDED)`
succeeds, contradicting the claim that it succeeds only when the order
status is SHIPPED or DELIVERED (`Order.canBeRefunded` exists but the
service never consults it). -/
theorem claim_C5_counterexample :
    ordPaid.paymentStatus = .PAID
    ∧ ordPaid.status = .CONFIRMED
    ∧ ordPaid.status ≠ .SHIPPED
    ∧ ordPaid.status ≠ .DELIVERED
    ∧ ordPaid.canBeRefunded = false
    ∧ (updatePaymentStatus stPaid "o1" .REFUNDED).1 =
        .ok { ordPaid with paymentStatus := .REFUNDED, status := .REFUNDED } :=
  ⟨rfl, rfl, by decide, by decide, by decide, rfl⟩

/-- C5 (amended): `updatePaymentStatus(id, REFUNDED)` succeeds exactly
when the order's current paymentStatus is PAID — the order status is not
checked — and then sets paymentStatus = REFUNDED, forces
status = REFUNDED and restores stock for all items; otherwise it throws
BusinessLogic. -/
theorem claim_C5_refund_amended (s : St) (id : String) (o : Order)
    (s1 : St) (h : getOrderById s id = (some o, s1))
    (hitems : ∀ it ∈ o.items, 0 < it.quantity) :
    (o.paymentStatus = .PAID →
      (updatePaymentStatus s id .REFUNDED).1 =
        .ok { o with paymentStatus := .REFUNDED, status := .REFUNDED }
      ∧ ∀ pid, findProduct (updatePaymentStatus s id .REFUNDED).2.products pid =
          (findProduct s.products pid).map
            (fun p => { p with stock := p.stock + restoredQty pid o.items }))
    ∧ (o.paymentStatus ≠ .PAID →
      updatePaymentStatus s id .REFUNDED =
        (.error (.businessLogic "Only paid orders can be refunded"), s1)) := by
  have hsp : s1.products = s.products := by
    have t := (getOrderById_state s id).2.1
    rw [h] at t
    exact t
  constructor
  · intro hpaid
    have hcond : ¬(o.paymentStatus ≠ PaymentStatus.PAID) := by simp [hpaid]
    unfold updatePaymentStatus
    rw [h]
    dsimp only
    unfold applyPaymentEvent Order.refund
    rw [if_neg hcond]
    dsimp only
    refine ⟨rfl, fun pid => ?_⟩
    show findProduct (restoreStockLoop s1.products o.items) pid = _
    rw [findProduct_restoreStockLoop o.items s1.products hitems pid, hsp]
  · intro hnp
    unfold updatePaymentStatus
    rw [h]
    dsimp only
    unfold applyPaymentEvent Order.refund
    rw [if_pos hnp]
    rfl

/-- C5 witness for the amended claim: refunding the PAID (CONFIRMED)
order succeeds, forces REFUNDED, and gives each product back the ordered
quantity. -/
theorem claim_C5_witness :
    getOrderById stPaid "o1"
      = (some ordPaid, { stPaid with orderCache := [("o1", ordPaid)] })
    ∧ (∀ it ∈ ordPaid.items, 0 < it.quantity)
    ∧ ordPaid.paymentStatus = .PAID
    ∧ (updatePaymentStatus stPaid "o1" .REFUNDED).1 =
        .ok { ordPaid with paymentStatus := .REFUNDED, status := .REFUNDED }
    ∧ (∀ pid, findProduct (updatePaymentStatus stPaid "o1" .REFUNDED).2.products pid =
        (findProduct stPaid.products pid).map
          (fun p => { p with stock := p.stock + restoredQty pid ordPaid.items }))
    ∧ findProduct (updatePaymentStatus stPaid "o1" .REFUNDED).2.products "p1"
        = some { prodA with stock := 5 } := by
  have h : getOrderById stPaid "o1"
      = (some ordPaid, { stPaid with orderCache := [("o1", ordPaid)] }) := rfl
  have hi : ∀ it ∈ ordPaid.items, 0 < it.quantity := by decide
  obtain ⟨hp, -⟩ := claim_C5_refund_amended stPaid "o1" ordPaid _ h hi
  obtain ⟨h1, h2⟩ := hp rfl
  exact ⟨h, hi, rfl, h1, h2, rfl⟩

/-- C6: paying an order sets paymentStatus = PAID and auto-confirms it
exactly when its status was PENDING at the time of the call; a FAILED
payment only sets paymentStatus = FAILED and leaves the order status
untouched in every state. -/
theorem claim_C6_payment_paid_failed (s : St) (id : String) (o : Order)
    (s1 : St) (h : getOrderById s id = (some o, s1)) :
    (updatePaymentStatus s id .PAID).1 =
      .ok { o with paymentStatus := .PAID,
                   status := if o.status = .PENDING then .CONFIRMED else o.status }
    ∧ (updatePaymentStatus s id .FAILED).1 =
      .ok { o with paymentStatus := .FAILED } := by
  constructor
  · unfold updatePaymentStatus
    rw [h]
    dsimp only
    unfold applyPaymentEvent Order.markAsPaid Order.confirm
    dsimp only
    by_cases hs : o.status = .PENDING
    · rw [if_pos hs, if_neg (by simp [hs]), if_pos hs]
      rfl
    · rw [if_neg hs, if_neg hs]
  · unfold updatePaymentStatus
    rw [h]
    rfl

/-- C6 witness (scenario E of the spec): paying a PENDING order marks it
PAID and auto-advances it to CONFIRMED in the same call; a FAILED
payment leaves the status at PENDING. -/
theorem claim_C6_witness :
    getOrderById stA' "o1"
      = (some ordA, { stA' with orderCache := [("o1", ordA)] })
    ∧ (updatePaymentStatus stA' "o1" .PAID).1 =
        .ok { ordA with paymentStatus := .PAID,
                        status := if ordA.status = .PENDING then .CONFIRMED else ordA.status }
    ∧ (updatePaymentStatus stA' "o1" .PAID).1 =
        .ok { ordA with paymentStatus := .PAID, status := .CONFIRMED }
    ∧ (updatePaymentStatus stA' "o1" .FAILED).1 =
        .ok { ordA with paymentStatus := .FAILED } := by
  have h : getOrderById stA' "o1"
      = (some ordA, { stA' with orderCache := [("o1", ordA)] }) := rfl
  obtain ⟨c1, c2⟩ := claim_C6_payment_paid_failed stA' "o1" ordA _ h
  refine ⟨h, c1, ?_, c2⟩
  rw [c1]
  rfl

/-- C7: `cancelOrder` succeeds from every status except DELIVERED,
CANCELLED and REFUNDED, setting status = CANCELLED and giving each
product back the quantity the order held; from the three terminal
statuses (in particular from CANCELLED) it fails with BusinessLogic and
performs no stock restoration. -/
theorem claim_C7_cancel_policy (s : St) (id : String) (o : Order)
    (s1 : St) (h : getOrderById s id = (some o, s1)) :
    ((o.status = .DELIVERED ∨ o.status = .CANCELLED ∨ o.status = .REFUNDED) →
      cancelOrder s id =
        (.error (.businessLogic "Order cannot be cancelled in its current status"), s1)
      ∧ s1.products = s.products)
    ∧ (o.status ≠ .DELIVERED → o.status ≠ .CANCELLED → o.status ≠ .REFUNDED →
      (∀ it ∈ o.items, 0 < it.quantity) →
      (cancelOrder s id).1 = .ok { o with status := .CANCELLED }
      ∧ ∀ pid, findProduct (cancelOrder s id).2.products pid =
          (findProduct s.products pid).map
            (fun p => { p with stock := p.stock + restoredQty pid o.items })) := by
  have hsp : s1.products = s.products := by
    have t := (getOrderById_state s id).2.1
    rw [h] at t
    exact t
  constructor
  · intro hterm
    refine ⟨?_, hsp⟩
    unfold cancelOrder
    rw [h]
    dsimp only
    have hcb : o.canBeCancelled = false := by
      unfold Order.canBeCancelled
      rcases hterm with h1 | h1 | h1 <;> simp [h1]
    rw [hcb]
    rfl
  · intro h1 h2 h3 hitems
    have hcb : o.canBeCancelled = true := by
      unfold Order.canBeCancelled
      simp [h1, h2, h3]
    have hcancel : o.cancel = .ok { o with status := .CANCELLED } := by
      unfold Order.cancel
      rw [if_neg (by simp [h1, h2, h3])]
    unfold cancelOrder
    rw [h]
    dsimp only
    rw [hcb]
    rw [hcancel]
    refine ⟨rfl, fun pid => ?_⟩
    show findProduct (restoreStockLoop s1.products o.items) pid = _
    rw [findProduct_restoreStockLoop o.items s1.products hitems pid, hsp]

/-- C7 witness (scenario D of the spec, plus the idempotence-adjacent
case): cancelling a PROCESSING order succeeds and restores the product
stock from 3 back to 5; cancelling an already-CANCELLED order fails with
BusinessLogic and leaves every stock untouched. -/
theorem claim_C7_witness :
    getOrderById stD "o1" = (some ordD, { stD with orderCache := [("o1", ordD)] })
    ∧ (cancelOrder stD "o1").1 = .ok { ordD with status := .CANCELLED }
    ∧ findProduct (cancelOrder stD "o1").2.products "p1"
        = some { prodA with stock := 5 }
    ∧ getOrderById stC "o1" = (some ordC, { stC with orderCache := [("o1", ordC)] })
    ∧ cancelOrder stC "o1" =
        (.error (.businessLogic "Order cannot be cancelled in its current status"),
          { stC with orderCache := [("o1", ordC)] })
    ∧ findProduct (cancelOrder stC "o1").2.products "p1"
        = some { prodA with stock := 3 } := by
  have hD : getOrderById stD "o1"
      = (some ordD, { stD with orderCache := [("o1", ordD)] }) := rfl
  have hC : getOrderById stC "o1"
      = (some ordC, { stC with orderCache := [("o1", ordC)] }) := rfl
  obtain ⟨-, hsucc⟩ := claim_C7_cancel_policy stD "o1" ordD _ hD
  obtain ⟨hs1, -⟩ :=
    hsucc (by decide) (by decide) (by decide) (by decide)
  obtain ⟨hfail, -⟩ := (claim_C7_cancel_policy stC "o1" ordC _ hC).1 (by right; left; rfl)
  exact ⟨hD, hs1, rfl, hC, hfail, rfl⟩

/-- C8 counterexample: cancelling `ordZ` (whose first item has quantity
0, so its restoration throws) still succeeds, but the second item's
product `p2` keeps stock 7 instead of 7 + 5: the swallowed failure DOES
prevent the restoration of the remaining items. -/
theorem claim_C8_counterexample :
    (cancelOrder stZ "o2").1 = .ok { ordZ with status := .CANCELLED }
    ∧ ordZ.items = [itemZ, itemW]
    ∧ itemW.productId = "p2"
    ∧ itemW.quantity = 5
    ∧ findProduct stZ.products "p2" = some prodB
    ∧ prodB.stock = 7
    ∧ findProduct (cancelOrder stZ "o2").2.products "p2" = some prodB
    ∧ (7 : ℤ) + 5 ≠ 7 :=
  ⟨rfl, rfl, rfl, rfl, rfl, rfl, rfl, by decide⟩

/-- C8 (amended): a failure while restoring an item is swallowed and
never makes the enclosing cancel/refund fail — the primary transition
always completes — and when every item restores successfully each
product gets back its full quantity; but a failing item aborts the loop,
so the items after it are not restored. -/
theorem claim_C8_restore_best_effort_amended (s : St) (id : String)
    (o : Order) (s1 : St) (h : getOrderById s id = (some o, s1)) :
    (o.canBeCancelled = true →
      (cancelOrder s id).1 = .ok { o with status := .CANCELLED })
    ∧ (o.paymentStatus = .PAID →
      (updatePaymentStatus s id .REFUNDED).1 =
        .ok { o with paymentStatus := .REFUNDED, status := .REFUNDED })
    ∧ ((∀ it ∈ o.items, 0 < it.quantity) → ∀ pid,
      findProduct (restoreStockLoop s.products o.items) pid =
        (findProduct s.products pid).map
          (fun p => { p with stock := p.stock + restoredQty pid o.items }))
    ∧ (∀ (ps : List Product) (it : OrderItem) (rest : List OrderItem)
        (p : Product), findProduct ps it.productId = some p →
        it.quantity ≤ 0 → restoreStockLoop ps (it :: rest) = ps) := by
  refine ⟨?_, ?_, ?_, ?_⟩
  · intro hcb
    have hcancel : o.cancel = .ok { o with status := .CANCELLED } := by
      unfold Order.cancel
      unfold Order.canBeCancelled at hcb
      rw [if_neg (by simp_all)]
    unfold cancelOrder
    rw [h]
    dsimp only
    rw [hcb]
    rw [hcancel]
    rfl
  · intro hpaid
    have hcond : ¬(o.paymentStatus ≠ PaymentStatus.PAID) := by simp [hpaid]
    unfold updatePaymentStatus
    rw [h]
    dsimp only
    unfold applyPaymentEvent Order.refund
    rw [if_neg hcond]
    rfl
  · intro hitems pid
    exact findProduct_restoreStockLoop o.items s.products hitems pid
  · intro ps it rest p hp hq
    unfold restoreStockLoop
    rw [hp]
    dsimp only
    unfold Product.increaseStock
    rw [if_pos hq]

/-- C8 witness for the amended claim: cancelling `ordZ` completes even
though restoring its first item throws, and the loop stops there: the
concrete restore loop leaves both products untouched. -/
theorem claim_C8_witness :
    getOrderById stZ "o2" = (some ordZ, { stZ with orderCache := [("o2", ordZ)] })
    ∧ ordZ.canBeCancelled = true
    ∧ (cancelOrder stZ "o2").1 = .ok { ordZ with status := .CANCELLED }
    ∧ findProduct stZ.products itemZ.productId = some prodA
    ∧ itemZ.quantity ≤ 0
    ∧ restoreStockLoop stZ.products (itemZ :: [itemW]) = stZ.products := by
  have h : getOrderById stZ "o2"
      = (some ordZ, { stZ with orderCache := [("o2", ordZ)] }) := rfl
  obtain ⟨hc, -, -, habort⟩ :=
    claim_C8_restore_best_effort_amended stZ "o2" ordZ _ h
  exact ⟨h, by decide, hc (by decide), rfl, by decide,
    habort stZ.products itemZ [itemW] prodA rfl (by decide)⟩

/-- The imperative error-accumulation loop of `validateCartForCheckout`
equals the item-by-item concatenation. -/
theorem foldl_append_itemErrors (ps : List Product) :
    ∀ (items : List CartItem) (acc : List String),
      items.foldl (fun acc item => acc ++ checkoutItemErrors ps item) acc
        = acc ++ itemErrorsAll ps items
  | [], acc => by simp [itemErrorsAll]
  | item :: rest, acc => by
    simp only [List.foldl_cons, itemErrorsAll]
    rw [foldl_append_itemErrors ps rest]
    simp [List.append_assoc]

/-- C9: for a user whose cart loads, `validateCartForCheckout` returns
(never throws): an empty cart yields `isValid = false` with the single
error `Cart is empty`; a non-empty cart yields the concatenation of the
per-item errors with `isValid` true exactly when that list is empty; and
an item contributes no error precisely when its product still exists, is
active, can cover the quantity, and the cached price drifted by at most
0.01 (a drift of exactly 0.01 is tolerated). -/
theorem claim_C9_validate_cart (s : St) (userId : String) (cart : Cart)
    (s1 : St) (h : getCartByUserId s userId = (.ok cart, s1)) :
    (cart.items = [] →
      validateCartForCheckout s userId =
        (.ok { isValid := false, errors := ["Cart is empty"] }, s1))
    ∧ (cart.items ≠ [] →
      validateCartForCheckout s userId =
        (.ok { isValid := (itemErrorsAll s1.products cart.items).length == 0,
               errors := itemErrorsAll s1.products cart.items }, s1))
    ∧ (∀ l : List String, ((l.length == 0) = true ↔ l = []))
    ∧ (∀ item : CartItem,
        checkoutItemErrors s1.products item = [] ↔
        ∃ p, findProduct s1.products item.productId = some p
          ∧ p.isActive = true
          ∧ item.quantity ≤ p.stock
          ∧ |item.price - p.price| ≤ 1/100) := by
  refine ⟨?_, ?_, ?_, ?_⟩
  · intro hempty
    unfold validateCartForCheckout
    rw [h]
    dsimp only
    rw [if_pos (by simp [Cart.isEmpty, hempty])]
  · intro hne
    unfold validateCartForCheckout
    rw [h]
    dsimp only
    rw [if_neg (by simp [Cart.isEmpty, hne])]
    rw [foldl_append_itemErrors s1.products cart.items []]
    rw [List.nil_append]
  · intro l
    cases l <;> simp
  · intro item
    unfold checkoutItemErrors
    cases hf : findProduct s1.products item.productId with
    | none => simp
    | some p =>
      dsimp only
      by_cases ha : p.isActive
      · have hact' : ¬((!p.isActive) = true) := by simp [ha]
        rw [if_neg hact']
        constructor
        · intro hempty
          rw [List.append_eq_nil] at hempty
          obtain ⟨hs, hd⟩ := hempty
          refine ⟨p, rfl, by simpa using ha, ?_, ?_⟩
          · by_contra hstock
            have hc : (!p.canFulfillQuantity item.quantity) = true := by
              simp only [Product.canFulfillQuantity]
              simp
              omega
            rw [if_pos hc] at hs
            simp at hs
          · by_contra hdrift
            have hc : |item.price - p.price| > 1/100 := by
              push_neg at hdrift
              exact hdrift
            rw [if_pos hc] at hd
            simp at hd
        · rintro ⟨q, hq, hact, hstock, hdrift⟩
          cases hq
          have hc1 : ¬((!p.canFulfillQuantity item.quantity) = true) := by
            simp only [Product.canFulfillQuantity]
            simp
            omega
          have hc2 : ¬(|item.price - p.price| > 1/100) := by
            push_neg
            exact hdrift
          rw [if_neg hc1, if_neg hc2]
          rfl
      · have hact' : (!p.isActive) = true := by simp [ha]
        rw [if_pos hact']
        constructor
        · intro hx
          simp at hx
        · rintro ⟨q, hq, hact, -, -⟩
          cases hq
          exact absurd hact (by simpa using ha)

/-- C9 witness: on the concrete cart (one clean line, one line whose
price drifted by exactly 0.01, one line over stock, one line whose
product vanished), the check returns the accumulated error list with
`isValid = false`, the tolerated-drift line contributes no error, and
the over-stock and vanished-product lines do. -/
theorem claim_C9_witness :
    getCartByUserId stW "u1" = (.ok cartW, stW)
    ∧ validateCartForCheckout stW "u1" =
        (.ok { isValid := (itemErrorsAll stW.products cartW.items).length == 0,
               errors := itemErrorsAll stW.products cartW.items }, stW)
    ∧ (checkoutItemErrors stW.products itemC2 = [] ↔
        ∃ p, findProduct stW.products itemC2.productId = some p
          ∧ p.isActive = true
          ∧ itemC2.quantity ≤ p.stock
          ∧ |itemC2.price - p.price| ≤ 1/100)
    ∧ checkoutItemErrors stW.products itemC2 = []
    ∧ checkoutItemErrors stW.products itemC3 ≠ []
    ∧ checkoutItemErrors stW.products itemC4 ≠ []
    ∧ ((itemErrorsAll stW.products cartW.items).length == 0) = false := by
  have h : getCartByUserId stW "u1" = (.ok cartW, stW) := rfl
  obtain ⟨-, c2, -, c4⟩ := claim_C9_validate_cart stW "u1" cartW stW h
  refine ⟨h, c2 (by decide), c4 itemC2, ?_, ?_, ?_, ?_⟩
  · rfl
  · decide
  · decide
  · rfl

/-- Items present in a cart after `removeItem` never carry the removed
product id. -/
theorem removeItem_no_residue (cart : Cart) (productId : String) :
    ∀ item ∈ (cart.removeItem productId).items, item.productId ≠ productId := by
  intro item hmem
  unfold Cart.removeItem Cart.recalculateTotal at hmem
  dsimp only at hmem
  rw [List.mem_filter] at hmem
  simpa using hmem.2

/-- A successfully loaded cart that holds at least one item must have
come from the cache (the miss path caches and returns an empty cart). -/
theorem getCartByUserId_nonempty (s : St) (userId : String) (cart : Cart)
    (s1 : St) (h : getCartByUserId s userId = (.ok cart, s1))
    (hne : cart.items ≠ []) : s1 = s := by
  unfold getCartByUserId at h
  cases hu : findUser s.users userId with
  | none => rw [hu] at h; simp at h
  | some u =>
    rw [hu] at h
    dsimp only at h
    cases hc : findCart s.carts userId with
    | none =>
      rw [hc] at h
      simp only [Prod.mk.injEq, Except.ok.injEq] at h
      obtain ⟨hcart, -⟩ := h
      exact absurd (congrArg Cart.items hcart.symm) hne
    | some c =>
      rw [hc] at h
      simp only [Prod.mk.injEq, Except.ok.injEq] at h
      exact h.2.symm

/-- C10: `updateCartItemQuantity` rejects a negative quantity with
Validation before touching anything; with quantity 0 it behaves exactly
like `removeItemFromCart` (the item is removed entirely, and nothing
with that product id survives a removal); and for a product id not in
the cart it fails with NotFound. -/
theorem claim_C10_update_quantity (s : St) (userId productId : String) :
    (∀ q : ℤ, q < 0 →
      updateCartItemQuantity s userId productId q =
        (.error (.validation "Quantity cannot be negative"), s))
    ∧ updateCartItemQuantity s userId productId 0 =
        removeItemFromCart s userId productId
    ∧ (∀ (q : ℤ) (cart : Cart) (s1 : St), 0 ≤ q →
        getCartByUserId s userId = (.ok cart, s1) →
        cart.items.find? (fun item => item.productId == productId) = none →
        updateCartItemQuantity s userId productId q =
          (.error (.notFound "Item not found in cart"), s1))
    ∧ (∀ cart : Cart, ∀ item ∈ (cart.removeItem productId).items,
        item.productId ≠ productId) := by
  refine ⟨?_, ?_, ?_, fun cart => removeItem_no_residue cart productId⟩
  · intro q hq
    unfold updateCartItemQuantity
    rw [if_pos hq]
  · unfold updateCartItemQuantity
    rw [if_neg (by omega)]
    cases hg : getCartByUserId s userId with
    | mk res s1 =>
      cases res with
      | error e =>
        unfold removeItemFromCart
        rw [hg]
      | ok cart =>
        unfold removeItemFromCart
        rw [hg]
        dsimp only
        cases hfind : cart.items.find? (fun item => item.productId == productId) with
        | none => rfl
        | some item =>
          rw [if_pos rfl]
          have hne : cart.items ≠ [] := by
            intro hnil
            rw [hnil] at hfind
            simp at hfind
          have hs1 : s1 = s := getCartByUserId_nonempty s userId cart s1 hg hne
          subst hs1
          rw [hg]
          dsimp only
          rw [hfind]
  · intro q cart s1 hq hg hnone
    unfold updateCartItemQuantity
    rw [if_neg (by omega)]
    rw [hg]
    dsimp only
    rw [hnone]

/-- C10 witness: on the concrete cart, quantity -1 fails Validation
leaving the state alone, quantity 0 coincides with
`removeItemFromCart` and leaves no line with that product id, and an
absent product id fails NotFound. -/
theorem claim_C10_witness :
    updateCartItemQuantity stW "u1" "p1" (-1) =
      (.error (.validation "Quantity cannot be negative"), stW)
    ∧ updateCartItemQuantity stW "u1" "p1" 0 = removeItemFromCart stW "u1" "p1"
    ∧ getCartByUserId stW "u1" = (.ok cartW, stW)
    ∧ cartW.items.find? (fun item => item.productId == "zz") = none
    ∧ updateCartItemQuantity stW "u1" "zz" 3 =
        (.error (.notFound "Item not found in cart"), stW)
    ∧ (∀ item ∈ (cartW.removeItem "p1").items, item.productId ≠ "p1") := by
  obtain ⟨c1, c2, c3, c4⟩ := claim_C10_update_quantity stW "u1" "p1"
  obtain ⟨-, -, c3z, -⟩ := claim_C10_update_quantity stW "u1" "zz"
  have hg : getCartByUserId stW "u1" = (.ok cartW, stW) := rfl
  exact ⟨c1 (-1) (by decide), c2, hg, by decide,
    c3z 3 cartW stW (by decide) hg (by decide), c4 cartW⟩

end Shop
